import Mathlib

/-!
Verification of the worker-lookup / date-normalization / connectivity modules.

Shallow embedding of the three source files:
* `src/unnamed/part_000` — legacy lookup module (slash-only date parser built on
  the host date engine),
* `src/unnamed/part_001` — lookup module with the truncation-variant date parser,
* `src/client/lib/firebase.ts` — connectivity manager plus the gender-aware
  lookup module with the offset-shifted (Morocco, UTC+1) date parser.

JavaScript strings are modelled as Lean `String`s (lists of characters);
JavaScript numbers reaching the embedded code paths are modelled as exact
integers (`Int`), which matches the host semantics for values within
Number.MAX_SAFE_INTEGER; fallible operations return `Option`.
-/

namespace Secteur

/-! ## JavaScript string primitives -/

/-- Set of characters treated as whitespace by JavaScript
(`String.prototype.trim`, `parseInt`): tab, LF, VT, FF, CR, space, NBSP,
Ogham space mark, the U+2000–U+200A spaces, LS, PS, NNBSP, MMSP,
ideographic space and the BOM. -/
def jsWhitespace (c : Char) : Bool :=
  decide (c.toNat ∈ [9, 10, 11, 12, 13, 32, 160, 5760,
    8192, 8193, 8194, 8195, 8196, 8197, 8198, 8199, 8200, 8201, 8202,
    8232, 8233, 8239, 8287, 12288, 65279])

/-- Digit test used by the JS regexes (`\d` is exactly the ASCII digits). -/
def jsIsDigit (c : Char) : Bool :=
  decide (48 ≤ c.toNat ∧ c.toNat ≤ 57)

/-- Model of `String.prototype.trim` on character lists: drop leading and
trailing JS whitespace. -/
def jsTrimL (l : List Char) : List Char :=
  (((l.dropWhile jsWhitespace).reverse.dropWhile jsWhitespace)).reverse

/-- Model of `String.prototype.trim`. -/
def jsTrimStr (s : String) : String :=
  String.mk (jsTrimL s.data)

/-- Model of `String.prototype.split` with a one-character separator:
`"".split(sep)` is `[""]`, separators at the ends produce empty segments. -/
def splitOnChar (sep : Char) : List Char → List (List Char)
  | [] => [[]]
  | c :: rest =>
    match splitOnChar sep rest with
    | [] => [[]]
    | p :: ps => if c = sep then [] :: p :: ps else (c :: p) :: ps

/-- Numeric value of a list of ASCII digit characters. -/
def digitsNat (l : List Char) : Nat :=
  l.foldl (fun a c => a * 10 + (c.toNat - 48)) 0

/-- Shared tail of the `parseInt(s, 10)` model: longest leading run of ASCII
digits after the optional sign, `NaN` (`none`) when there is none. -/
def jsParseIntCore (sign : Int) (l : List Char) : Option Int :=
  let ds := l.takeWhile jsIsDigit
  if ds.isEmpty then none else some (sign * Int.ofNat (digitsNat ds))

/-- Model of `parseInt(s, 10)`: leading whitespace skipped, optional sign,
longest leading digit run parsed, `NaN` (`none`) when no digit is found.
Values are exact integers (faithful within Number.MAX_SAFE_INTEGER). -/
def jsParseIntL (l : List Char) : Option Int :=
  match l.dropWhile jsWhitespace with
  | '+' :: r => jsParseIntCore 1 r
  | '-' :: r => jsParseIntCore (-1) r
  | r => jsParseIntCore 1 r

/-- Model of `String.prototype.padStart(n, '0')`. -/
def padZero (n : Nat) (s : String) : String :=
  String.mk (List.replicate (n - s.length) '0') ++ s

/-- Model of `String.prototype.includes` (substring containment) on
character lists. -/
def listIncludes (pat : List Char) : List Char → Bool
  | [] => decide (pat = [])
  | a :: t => pat.isPrefixOf (a :: t) || listIncludes pat t

/-- Model of `s.includes(pat)`. -/
def strIncludes (s pat : String) : Bool :=
  listIncludes pat.data s.data

/-- Model of `String.prototype.toUpperCase`, restricted to ASCII (the only
case the embedded code distinguishes is the single letters H and M). -/
def jsToUpper (s : String) : String :=
  String.mk (s.data.map Char.toUpper)

/-! ## JSON values

Model of the values `JSON.parse` can produce. Numbers are modelled as exact
integers; the embedded code never computes with them (they are only tested
for falsiness and converted to strings). -/

inductive JSVal where
  | str (s : String)
  | num (n : Int)
  | bool (b : Bool)
  | null
  | arr (elems : List JSVal)
  | obj (fields : List (String × JSVal))

/-- JavaScript falsiness of a JSON value (`!v`): empty string, zero, `false`
and `null` are falsy; arrays and objects are always truthy. -/
def jsFalsy : JSVal → Bool
  | .str s => s = ""
  | .num n => n = 0
  | .bool b => !b
  | .null => true
  | .arr _ => false
  | .obj _ => false

mutual

/-- Model of JavaScript `String(v)` coercion: array elements are joined with
commas (`null` elements render as the empty string), plain objects render as
the usual `[object Object]`. -/
def jsToString : JSVal → String
  | .str s => s
  | .num n => toString n
  | .bool true => "true"
  | .bool false => "false"
  | .null => "null"
  | .obj _ => "[object Object]"
  | .arr xs => jsJoin xs

/-- Comma join of `Array.prototype.toString`. -/
def jsJoin : List JSVal → String
  | [] => ""
  | x :: xs =>
    (match x with
     | .null => ""
     | v => jsToString v)
    ++ (match xs with | [] => "" | _ :: _ => ",")
    ++ jsJoin xs

end

/-- Model of the field extraction `String(row[i] || '')`: a missing or falsy
field yields the empty string, anything else its string coercion. -/
def rowFieldString (fields : List JSVal) (i : Nat) : String :=
  match fields.get? i with
  | none => ""
  | some v => if jsFalsy v then "" else jsToString v

/-! ## Upstream HTTP model

The Google-Script fetch is modelled by its observable outcome: either the
promise rejects (network/CORS error, caught by the `try`/`catch`), or a
response arrives with a status code and a body that is empty text, malformed
JSON, or a parsed JSON value. -/

inductive UpstreamBody where
  | empty
  | malformed
  | json (v : JSVal)

inductive FetchOutcome where
  | networkFailure
  | response (status : Nat) (body : UpstreamBody)

/-- Model of `Response.ok`: status in the 2xx range. -/
def respOk (status : Nat) : Bool :=
  decide (200 ≤ status ∧ status ≤ 299)

/-! ## Worker lookup (src/unnamed/part_001) -/

structure GoogleSheetWorker where
  matricule : String
  nom_complet : String
  cin : String
  date_entree : String
deriving DecidableEq

/-- Observable outcome of one lookup call: whether the HTTP request was
issued, and the returned record (`none` models the `null` returns). The
function is total: every failure path of the source, including the thrown
exceptions swallowed by its `catch`, ends in `result = none`. -/
structure SearchOutcome where
  requested : Bool
  result : Option GoogleSheetWorker
deriving DecidableEq

/-- Embedding of `searchWorkerInGoogleSheet` from `src/unnamed/part_001`.
The guard mirrors `!searchValue || searchValue.trim().length === 0`; then the
fetch outcome drives `response.ok`, the empty-text check, `JSON.parse`
(whose exception lands in the `catch`), the
`!data || !Array.isArray(data) || data.length === 0` test, the first-row
shape check `!Array.isArray(row) || row.length < 14`, the positional field
mapping 0/2/3/13 and the final matricule/cin validation. -/
def searchWorkerInGoogleSheet (fetched : FetchOutcome) (searchValue : String) :
    SearchOutcome :=
  if searchValue = "" ∨ jsTrimStr searchValue = "" then ⟨false, none⟩
  else
    ⟨true,
      match fetched with
      | .networkFailure => none
      | .response status body =>
        if !respOk status then none
        else
          match body with
          | .empty => none
          | .malformed => none
          | .json data =>
            if jsFalsy data then none
            else
              match data with
              | .arr [] => none
              | .arr (row :: _) =>
                (match row with
                 | .arr fields =>
                   if fields.length < 14 then none
                   else
                     let matricule := rowFieldString fields 0
                     let nom_complet := rowFieldString fields 2
                     let cin := rowFieldString fields 3
                     let date_entree := rowFieldString fields 13
                     if matricule = "" ∧ cin = "" then none
                     else some ⟨matricule, nom_complet, cin, date_entree⟩
                 | _ => none)
              | _ => none⟩

/-! ## Gender-aware worker lookup (src/client/lib/firebase.ts) -/

structure GoogleSheetWorkerFB where
  matricule : String
  nom_complet : String
  cin : String
  sexe : String
  date_entree : String
deriving DecidableEq

structure SearchOutcomeFB where
  requested : Bool
  result : Option GoogleSheetWorkerFB
deriving DecidableEq

/-- Embedding of `convertGenderCode`:
`String(code || '').toUpperCase().trim()` compared against H and M. -/
def convertGenderCode (code : JSVal) : String :=
  let upperCode :=
    jsTrimStr (jsToUpper (if jsFalsy code then "" else jsToString code))
  if upperCode = "H" then "homme"
  else if upperCode = "M" then "femme"
  else ""

/-- Value passed to `convertGenderCode` by the caller: `row[4] || ''`. -/
def row4OrEmpty (fields : List JSVal) : JSVal :=
  match fields.get? 4 with
  | none => .str ""
  | some v => if jsFalsy v then .str "" else v

/-- Embedding of the gender-aware `searchWorkerInGoogleSheet` from
`src/client/lib/firebase.ts` (identical to the part_001 variant except for
the extra `sexe` field mapped from column 4 through `convertGenderCode`). -/
def searchWorkerInGoogleSheetFB (fetched : FetchOutcome) (searchValue : String) :
    SearchOutcomeFB :=
  if searchValue = "" ∨ jsTrimStr searchValue = "" then ⟨false, none⟩
  else
    ⟨true,
      match fetched with
      | .networkFailure => none
      | .response status body =>
        if !respOk status then none
        else
          match body with
          | .empty => none
          | .malformed => none
          | .json data =>
            if jsFalsy data then none
            else
              match data with
              | .arr [] => none
              | .arr (row :: _) =>
                (match row with
                 | .arr fields =>
                   if fields.length < 14 then none
                   else
                     let matricule := rowFieldString fields 0
                     let nom_complet := rowFieldString fields 2
                     let cin := rowFieldString fields 3
                     let sexe := convertGenderCode (row4OrEmpty fields)
                     let date_entree := rowFieldString fields 13
                     if matricule = "" ∧ cin = "" then none
                     else some ⟨matricule, nom_complet, cin, sexe, date_entree⟩
                 | _ => none)
              | _ => none⟩

/-- The failure conditions enumerated by the spec for the worker lookup:
non-2xx HTTP status, empty response body, malformed JSON, non-array body,
empty array, first row shorter than 14 fields, first row not itself an
array. (A fetch-level network failure is a separate, eighth cause.) -/
def isFailureResponse : FetchOutcome → Bool
  | .networkFailure => false
  | .response status body =>
    !respOk status ||
    (match body with
     | .empty => true
     | .malformed => true
     | .json (.arr []) => true
     | .json (.arr (.arr fields :: _)) => fields.length < 14
     | .json (.arr (_ :: _)) => true
     | .json _ => true)

/-! ## Date normalizer, shared pieces -/

/-- Test for the regex `/^\d{4}-\d{2}-\d{2}$/` (anchored at both ends:
exactly ten characters). -/
def isCanonicalDateL : List Char → Bool
  | [a, b, c, d, '-', e, f, '-', g, h] =>
    jsIsDigit a && jsIsDigit b && jsIsDigit c && jsIsDigit d &&
    jsIsDigit e && jsIsDigit f && jsIsDigit g && jsIsDigit h
  | _ => false

def isCanonicalDate (s : String) : Bool :=
  isCanonicalDateL s.data

/-- Test for the regex `/^\d{4}-\d{2}-\d{2}T/` (prefix only). -/
def isISOWithTimeL : List Char → Bool
  | a :: b :: c :: d :: '-' :: e :: f :: '-' :: g :: h :: 'T' :: _ =>
    jsIsDigit a && jsIsDigit b && jsIsDigit c && jsIsDigit d &&
    jsIsDigit e && jsIsDigit f && jsIsDigit g && jsIsDigit h
  | _ => false

def isISOWithTime (s : String) : Bool :=
  isISOWithTimeL s.data

/-- Embedding of the `dd/MM/yyyy` branch shared verbatim by the part_001 and
firebase.ts date parsers: split on `/`, `parseInt` each part (a `NaN` makes
every comparison false), range-check day in [1,31], month in [1,12],
year ≥ 1900 with no calendar validation, zero-pad and emit
`${yearNum}-${paddedMonth}-${paddedDay}`. -/
def parseSlashDMY (l : List Char) : Option String :=
  match splitOnChar '/' l with
  | [day, month, year] =>
    match jsParseIntL day, jsParseIntL month, jsParseIntL year with
    | some dayNum, some monthNum, some yearNum =>
      if 1 ≤ dayNum ∧ dayNum ≤ 31 ∧ 1 ≤ monthNum ∧ monthNum ≤ 12 ∧
          1900 ≤ yearNum then
        some (toString yearNum ++ "-" ++ padZero 2 (toString monthNum) ++ "-" ++
          padZero 2 (toString dayNum))
      else none
    | _, _, _ => none
  | _ => none

/-- Embedding of `parseFrenchDate` from `src/unnamed/part_001` (the
truncation variant): empty and whitespace-only input give `null`, canonical
`YYYY-MM-DD` input passes through, a date-time input is truncated at the `T`
(`trimmed.split('T')[0]`), and otherwise the shared slash branch runs. -/
def parseFrenchDate (dateStr : String) : Option String :=
  if dateStr = "" then none
  else
    let trimmed := jsTrimStr dateStr
    if trimmed = "" then none
    else if isCanonicalDate trimmed then some trimmed
    else if isISOWithTime trimmed then
      some (String.mk (trimmed.data.takeWhile (fun c => c ≠ 'T')))
    else parseSlashDMY trimmed.data

/-! ## Calendar arithmetic

Model of the ECMAScript epoch/calendar conversions (`MakeDay`, `Day`,
`YearFromTime`, `MonthFromTime`, `DateFromTime`) by the standard
era-based civil-calendar algorithms on exact integers; all divisions are
floor divisions (`Int.ediv`). -/

/-- Days since the epoch 1970-01-01 of the civil date `y-m-d` (month 1–12). -/
def daysFromCivil (y m d : Int) : Int :=
  let y' := y - (if m ≤ 2 then 1 else 0)
  let era := Int.ediv y' 400
  let yoe := y' - era * 400
  let mp := m + (if 2 < m then -3 else 9)
  let doy := Int.ediv (153 * mp + 2) 5 + d - 1
  let doe := yoe * 365 + Int.ediv yoe 4 - Int.ediv yoe 100 + doy
  era * 146097 + doe - 719468

/-- Civil date `(y, m, d)` (month 1–12) of a count of days since the epoch. -/
def civilFromDays (z0 : Int) : Int × Int × Int :=
  let z := z0 + 719468
  let era := Int.ediv z 146097
  let doe := z - era * 146097
  let yoe :=
    Int.ediv (doe - Int.ediv doe 1460 + Int.ediv doe 36524 - Int.ediv doe 146096)
      365
  let y := yoe + era * 400
  let doy := doe - (365 * yoe + Int.ediv yoe 4 - Int.ediv yoe 100)
  let mp := Int.ediv (5 * doy + 2) 153
  let d := doy - Int.ediv (153 * mp + 2) 5 + 1
  let m := mp + (if mp < 10 then 3 else -9)
  (y + (if m ≤ 2 then 1 else 0), m, d)

def isLeapYear (y : Int) : Bool :=
  decide ((Int.emod y 4 = 0 ∧ Int.emod y 100 ≠ 0) ∨ Int.emod y 400 = 0)

def daysInMonth (y m : Int) : Int :=
  if m = 2 then (if isLeapYear y then 29 else 28)
  else if m = 4 ∨ m = 6 ∨ m = 9 ∨ m = 11 then 30
  else 31

/-! ## Host date engine model

`new Date(string)` of the browser, restricted to what the embedded code can
feed it: the ECMAScript Date Time String Format
`YYYY-MM-DD[THH:mm[:ss[.fff]]][Z|±hh:mm]`. The host timezone is taken to be
UTC, so a date-time without an offset designator is read as UTC; out-of-range
components (including a day that does not exist in its month) yield an
Invalid Date (`none`), as do strings outside the format. -/

def twoDigitVal (a b : Char) : Int :=
  Int.ofNat ((a.toNat - 48) * 10 + (b.toNat - 48))

/-- Offset designator at the end of a date-time string: absent (host UTC),
`Z`, or `±hh:mm`; the result is the offset in minutes. -/
def parseOffsetMinutes : List Char → Option Int
  | [] => some 0
  | ['Z'] => some 0
  | ['+', a, b, ':', c, d] =>
    if jsIsDigit a ∧ jsIsDigit b ∧ jsIsDigit c ∧ jsIsDigit d ∧
        twoDigitVal a b ≤ 23 ∧ twoDigitVal c d ≤ 59 then
      some (twoDigitVal a b * 60 + twoDigitVal c d)
    else none
  | ['-', a, b, ':', c, d] =>
    if jsIsDigit a ∧ jsIsDigit b ∧ jsIsDigit c ∧ jsIsDigit d ∧
        twoDigitVal a b ≤ 23 ∧ twoDigitVal c d ≤ 59 then
      some (-(twoDigitVal a b * 60 + twoDigitVal c d))
    else none
  | _ => none

/-- Fractional-seconds part `.f`, `.ff` or `.fff` (milliseconds), returning
the value in milliseconds and the rest of the input. -/
def parseSecFrac : List Char → Option (Int × List Char)
  | '.' :: rest =>
    let ds := rest.takeWhile jsIsDigit
    if 1 ≤ ds.length ∧ ds.length ≤ 3 then
      some (Int.ofNat (digitsNat ds * 10 ^ (3 - ds.length)), rest.drop ds.length)
    else none
  | rest => some (0, rest)

/-- Time-of-day (with optional seconds and fraction) and offset designator;
the result is milliseconds into the day minus the offset. -/
def parseTimeAndOffsetMs (l : List Char) : Option Int :=
  match l with
  | h1 :: h2 :: ':' :: mi1 :: mi2 :: rest =>
    if jsIsDigit h1 ∧ jsIsDigit h2 ∧ jsIsDigit mi1 ∧ jsIsDigit mi2 then
      let hh := twoDigitVal h1 h2
      let mi := twoDigitVal mi1 mi2
      let secPart : Option (Int × Int × List Char) :=
        match rest with
        | ':' :: s1 :: s2 :: rest2 =>
          if jsIsDigit s1 ∧ jsIsDigit s2 then
            match parseSecFrac rest2 with
            | some (f, rest3) => some (twoDigitVal s1 s2, f, rest3)
            | none => none
          else none
        | _ => some (0, 0, rest)
      match secPart with
      | none => none
      | some (ss, frac, rest3) =>
        match parseOffsetMinutes rest3 with
        | none => none
        | some offMin =>
          if (hh ≤ 23 ∧ mi ≤ 59 ∧ ss ≤ 59) ∨
              (hh = 24 ∧ mi = 0 ∧ ss = 0 ∧ frac = 0) then
            some (hh * 3600000 + mi * 60000 + ss * 1000 + frac - offMin * 60000)
          else none
    else none
  | _ => none

def fourDigitVal (a b c d : Char) : Int :=
  Int.ofNat ((((a.toNat - 48) * 10 + (b.toNat - 48)) * 10 + (c.toNat - 48)) * 10
    + (d.toNat - 48))

/-- Epoch milliseconds of a Date Time String Format string, `none` for an
Invalid Date. -/
def jsDateParseMsL (l : List Char) : Option Int :=
  match l with
  | y1 :: y2 :: y3 :: y4 :: '-' :: mo1 :: mo2 :: '-' :: d1 :: d2 :: rest =>
    if jsIsDigit y1 ∧ jsIsDigit y2 ∧ jsIsDigit y3 ∧ jsIsDigit y4 ∧
        jsIsDigit mo1 ∧ jsIsDigit mo2 ∧ jsIsDigit d1 ∧ jsIsDigit d2 then
      let y := fourDigitVal y1 y2 y3 y4
      let mo := twoDigitVal mo1 mo2
      let d := twoDigitVal d1 d2
      if 1 ≤ mo ∧ mo ≤ 12 ∧ 1 ≤ d ∧ d ≤ daysInMonth y mo then
        match rest with
        | [] => some (daysFromCivil y mo d * 86400000)
        | 'T' :: timePart =>
          match parseTimeAndOffsetMs timePart with
          | some t => some (daysFromCivil y mo d * 86400000 + t)
          | none => none
        | _ => none
      else none
    else none
  | _ => none

/-- Model of `(new Date(s)).getTime()`: `some` epoch milliseconds, or `none`
for an Invalid Date (`NaN`). -/
def jsDateParseMs (s : String) : Option Int :=
  jsDateParseMsL s.data

/-- Rendering used by the Morocco branch of firebase.ts:
`` `${getUTCFullYear()}-${pad(getUTCMonth()+1)}-${pad(getUTCDate())}` `` of the
instant shifted by one hour (`getTime() + 1*60*60*1000`). -/
def moroccoShiftRender (ms : Int) : String :=
  let shifted := ms + 1 * 60 * 60 * 1000
  let ymd := civilFromDays (Int.ediv shifted 86400000)
  toString ymd.1 ++ "-" ++ padZero 2 (toString ymd.2.1) ++ "-" ++
    padZero 2 (toString ymd.2.2)

/-- Embedding of `parseFrenchDate` from `src/client/lib/firebase.ts` (the
offset-shifted Morocco variant), parameterized by the host date engine
`engine` (mapping a string to `getTime()` of `new Date` on it, `none` for an
Invalid Date). On a date-time input whose parse is invalid, the `NaN`
propagates through the arithmetic and the template literal renders the
string `NaN-NaN-NaN` (the `try`/`catch` never fires: none of the involved
operations throws). The other branches match the truncation variant. -/
def parseFrenchDateMorocco (engine : String → Option Int) (dateStr : String) :
    Option String :=
  if dateStr = "" then none
  else
    let trimmed := jsTrimStr dateStr
    if trimmed = "" then none
    else if isCanonicalDate trimmed then some trimmed
    else if isISOWithTime trimmed then
      match engine trimmed with
      | some ms => some (moroccoShiftRender ms)
      | none => some "NaN-NaN-NaN"
    else parseSlashDMY trimmed.data

/-- Date part of `toISOString()` of an instant (four-digit zero-padded year;
the embedded code never reaches this with years outside 0–9999). -/
def isoDateRenderUTC (ms : Int) : String :=
  let ymd := civilFromDays (Int.ediv ms 86400000)
  padZero 4 (toString ymd.1) ++ "-" ++ padZero 2 (toString ymd.2.1) ++ "-" ++
    padZero 2 (toString ymd.2.2)

/-- Model of `s => new Date(s).toISOString().split('T')[0]` guarded by the
`isNaN` check of the legacy module: `none` for an Invalid Date. -/
def jsDateToISODate (s : String) : Option String :=
  (jsDateParseMs s).map isoDateRenderUTC

/-- Embedding of `parseFrenchDate` from `src/unnamed/part_000` (the legacy
variant), parameterized by the host date engine `jsDate` (modelling
`new Date(str)`, the `isNaN` guard and `toISOString().split('T')[0]`): the
input is split on `/` WITHOUT trimming and with no canonical or date-time
fast path; anything that does not split into exactly three parts is `null`,
otherwise the host engine parses `` `${year}-${month}-${day}` ``. -/
def parseFrenchDateLegacy (jsDate : String → Option String)
    (dateStr : String) : Option String :=
  if dateStr = "" then none
  else
    match splitOnChar '/' dateStr.data with
    | [day, month, year] =>
      jsDate (String.mk year ++ "-" ++ String.mk month ++ "-" ++ String.mk day)
    | _ => none

/-! ## Connectivity probe (src/client/lib/firebase.ts) -/

/-- Error object observed by the `catch` of `testFirebaseConnection`:
`code` is the Firebase error code (`none` models `undefined`), `message`
and `name` the standard Error fields. -/
structure JSError where
  code : Option String
  message : String
  name : String
deriving DecidableEq

/-- Outcome of one `getDoc` attempt raced against the 30-second timer:
either it resolves in time, or the race rejects with an error (a timeout
produces `Error('Connection timeout')`). -/
inductive AttemptOutcome where
  | ok
  | err (e : JSError)

structure ConnResult where
  success : Bool
  error : Option String
deriving DecidableEq

/-- Effect trace of one probe call: how many remote document reads were
issued and which backoff delays (in ms) were slept. -/
structure ProbeTrace where
  reads : Nat
  delays : List Nat
deriving DecidableEq

/-- Truthiness of `error.code` (`if (error.code)`): defined and non-empty. -/
def codeTruthy : Option String → Bool
  | none => false
  | some c => !(c = "")

/-- Retry guard of the source:
`error.message?.includes('timeout') || error.message?.includes('fetch') ||
error.message?.includes('Failed to fetch')`. -/
def retryClassified (e : JSError) : Bool :=
  strIncludes e.message "timeout" || strIncludes e.message "fetch" ||
    strIncludes e.message "Failed to fetch"

/-- The `errorMessage` computation of the source's generic branch. -/
def connErrorMessage (e : JSError) : String :=
  if codeTruthy e.code then "Firebase error: " ++ e.code.getD ""
  else if strIncludes e.message "timeout" then
    "Connection timeout - server may be slow, retrying..."
  else if strIncludes e.message "fetch" || strIncludes e.message "Failed to fetch"
      then "Network connectivity issue - check your internet connection"
  else if e.name = "TypeError" ∧ strIncludes e.message "fetch" then
    "Network error - try refreshing the page"
  else "Connection failed"

/-- Recursion core of `testFirebaseConnection`. The source recurses with
`retryCount + 1` under the guard `retryCount < maxRetries` (with
`maxRetries = 3`); here the equivalent quantity
`remaining = maxRetries - retryCount` is the structurally decreasing
argument, so `retryCount < maxRetries` becomes `remaining = _ + 1`.
`attempts k` is the outcome of the `getDoc`/timeout race on attempt `k`. -/
def testFBCGo (online authed : Bool) (attempts : Nat → AttemptOutcome) :
    (retryCount : Nat) → (remaining : Nat) → ConnResult × ProbeTrace
  | retryCount, remaining =>
    if !online then (⟨false, some "Device is offline"⟩, ⟨0, []⟩)
    else if !authed then (⟨true, none⟩, ⟨0, []⟩)
    else
      match attempts retryCount with
      | .ok => (⟨true, none⟩, ⟨1, []⟩)
      | .err e =>
        if e.code = some "permission-denied" then
          (⟨false, some "Firestore rules not deployed. Deploy rules via Firebase Console."⟩,
            ⟨1, []⟩)
        else if e.code = some "failed-precondition" then
          (⟨false, some "Firestore database not created - please initialize database in Firebase Console"⟩,
            ⟨1, []⟩)
        else if e.code = some "unavailable" then
          (⟨false, some "Firebase backend temporarily unavailable. Client will operate in offline mode."⟩,
            ⟨1, []⟩)
        else
          match remaining with
          | remaining' + 1 =>
            if retryClassified e then
              let r := testFBCGo online authed attempts (retryCount + 1) remaining'
              (r.1, ⟨1 + r.2.reads, 2000 * 2 ^ retryCount :: r.2.delays⟩)
            else (⟨false, some (connErrorMessage e)⟩, ⟨1, []⟩)
          | 0 => (⟨false, some (connErrorMessage e)⟩, ⟨1, []⟩)

/-- Embedding of `testFirebaseConnection(retryCount)`: `online` models
`navigator.onLine`, `authed` models `auth.currentUser !== null`; the trace
records the remote reads issued and the `2000 * Math.pow(2, retryCount)`
backoff delays slept. -/
def testFirebaseConnection (online authed : Bool)
    (attempts : Nat → AttemptOutcome) (retryCount : Nat) :
    ConnResult × ProbeTrace :=
  testFBCGo online authed attempts retryCount (3 - retryCount)

/-- An attempt outcome classified as transient by the source: the error
message marks it as a timeout or transport failure, and its code is none of
the three terminal codes handled earlier in the `catch`. -/
def transientFailure : AttemptOutcome → Prop
  | .ok => False
  | .err e =>
    retryClassified e = true ∧ e.code ≠ some "permission-denied" ∧
    e.code ≠ some "failed-precondition" ∧ e.code ≠ some "unavailable"

/-! ## Helper lemmas -/

theorem digit_not_ws (c : Char) (h : jsIsDigit c = true) : jsWhitespace c = false := by
  have hb := of_decide_eq_true h
  unfold jsWhitespace
  rw [decide_eq_false_iff_not]
  intro hm
  simp only [List.mem_cons, List.not_mem_nil, or_false] at hm
  rcases hm with hm | hm | hm | hm | hm | hm | hm | hm | hm | hm | hm | hm | hm |
    hm | hm | hm | hm | hm | hm | hm | hm | hm | hm | hm | hm <;> omega

theorem digit_ne_slash (c : Char) (h : jsIsDigit c = true) : c ≠ '/' := by
  intro heq
  subst heq
  exact absurd h (by decide)

theorem dropWhile_eq_self_of_all (p : Char → Bool) (l : List Char)
    (h : ∀ c ∈ l, p c = false) : l.dropWhile p = l := by
  cases l with
  | nil => rfl
  | cons a t =>
    have ha := h a (List.mem_cons_self a t)
    simp [List.dropWhile_cons, ha]

theorem dropWhile_eq_nil_of_all (p : Char → Bool) (l : List Char)
    (h : ∀ c ∈ l, p c = true) : l.dropWhile p = [] := by
  induction l with
  | nil => rfl
  | cons a t ih =>
    have ha := h a (List.mem_cons_self a t)
    simp only [List.dropWhile_cons, ha, if_true]
    exact ih fun c hc => h c (List.mem_cons_of_mem a hc)

theorem jsTrimL_eq_self (l : List Char) (h : ∀ c ∈ l, jsWhitespace c = false) :
    jsTrimL l = l := by
  unfold jsTrimL
  rw [dropWhile_eq_self_of_all _ _ h,
    dropWhile_eq_self_of_all _ _ (fun c hc => h c (List.mem_reverse.mp hc)),
    List.reverse_reverse]

theorem jsTrimL_eq_nil (l : List Char) (h : ∀ c ∈ l, jsWhitespace c = true) :
    jsTrimL l = [] := by
  unfold jsTrimL
  rw [dropWhile_eq_nil_of_all _ _ h]
  rfl

theorem splitOnChar_eq_single (sep : Char) (l : List Char)
    (h : ∀ c ∈ l, c ≠ sep) : splitOnChar sep l = [l] := by
  induction l with
  | nil => rfl
  | cons a t ih =>
    have ha : a ≠ sep := h a (List.mem_cons_self a t)
    rw [splitOnChar, ih fun c hc => h c (List.mem_cons_of_mem a hc)]
    simp [ha]

theorem canonicalL_shape (l : List Char) (h : isCanonicalDateL l = true) :
    ∀ c ∈ l, jsIsDigit c = true ∨ c = '-' := by
  unfold isCanonicalDateL at h
  split at h
  · rename_i a b c' d e f g h'
    simp only [Bool.and_eq_true, and_assoc] at h
    obtain ⟨h1, h2, h3, h4, h5, h6, h7, h8⟩ := h
    intro c hc
    simp only [List.mem_cons, List.not_mem_nil, or_false] at hc
    rcases hc with rfl | rfl | rfl | rfl | rfl | rfl | rfl | rfl | rfl | rfl
    · exact Or.inl h1
    · exact Or.inl h2
    · exact Or.inl h3
    · exact Or.inl h4
    · exact Or.inr rfl
    · exact Or.inl h5
    · exact Or.inl h6
    · exact Or.inr rfl
    · exact Or.inl h7
    · exact Or.inl h8
  · exact absurd h (by simp)

theorem canonicalL_not_ws (l : List Char) (h : isCanonicalDateL l = true) :
    ∀ c ∈ l, jsWhitespace c = false := by
  intro c hc
  rcases canonicalL_shape l h c hc with hd | rfl
  · exact digit_not_ws c hd
  · decide

theorem canonicalL_no_slash (l : List Char) (h : isCanonicalDateL l = true) :
    ∀ c ∈ l, c ≠ '/' := by
  intro c hc
  rcases canonicalL_shape l h c hc with hd | rfl
  · exact digit_ne_slash c hd
  · decide

theorem canonical_ne_empty (s : String) (h : isCanonicalDate s = true) :
    s ≠ "" := by
  intro heq
  subst heq
  exact absurd h (by decide)

theorem canonical_trim (s : String) (h : isCanonicalDate s = true) :
    jsTrimStr s = s := by
  show String.mk (jsTrimL s.data) = s
  rw [jsTrimL_eq_self s.data (canonicalL_not_ws s.data h)]

theorem isoL_not_canonical (l : List Char) (h : isISOWithTimeL l = true) :
    isCanonicalDateL l = false := by
  unfold isISOWithTimeL at h
  split at h
  · rfl
  · exact absurd h (by simp)

theorem iso_ne_empty (s : String) (h : isISOWithTime s = true) : s ≠ "" := by
  intro heq
  subst heq
  exact absurd h (by decide)

/-- A string whose trim satisfies the date-time prefix regex cannot trim to
empty. -/
theorem iso_trim_ne_empty (s : String) (h : isISOWithTime (jsTrimStr s) = true) :
    jsTrimStr s ≠ "" := iso_ne_empty _ h

/-! ### Branch lemmas for the two date-parser variants -/

theorem parseFrenchDate_canonical (s : String) (h : isCanonicalDate s = true) :
    parseFrenchDate s = some s := by
  have hne : s ≠ "" := canonical_ne_empty s h
  have htr : jsTrimStr s = s := canonical_trim s h
  unfold parseFrenchDate
  simp only [htr, if_neg hne, h, if_true]

theorem parseFrenchDateMorocco_canonical (engine : String → Option Int)
    (s : String) (h : isCanonicalDate s = true) :
    parseFrenchDateMorocco engine s = some s := by
  have hne : s ≠ "" := canonical_ne_empty s h
  have htr : jsTrimStr s = s := canonical_trim s h
  unfold parseFrenchDateMorocco
  simp only [htr, if_neg hne, h, if_true]

theorem parseFrenchDate_iso (s : String)
    (h : isISOWithTime (jsTrimStr s) = true) :
    parseFrenchDate s =
      some (String.mk ((jsTrimStr s).data.takeWhile (fun c => c ≠ 'T'))) := by
  have htne : jsTrimStr s ≠ "" := iso_trim_ne_empty s h
  have hne : s ≠ "" := by
    intro heq
    apply htne
    rw [heq]
    decide
  have hcan : isCanonicalDate (jsTrimStr s) = false :=
    isoL_not_canonical _ h
  unfold parseFrenchDate
  simp only [if_neg hne, if_neg htne, isCanonicalDate] at *
  simp only [hcan, Bool.false_eq_true, if_false, h, if_true]

theorem parseFrenchDateMorocco_iso (engine : String → Option Int) (s : String)
    (h : isISOWithTime (jsTrimStr s) = true) :
    parseFrenchDateMorocco engine s =
      (match engine (jsTrimStr s) with
       | some ms => some (moroccoShiftRender ms)
       | none => some "NaN-NaN-NaN") := by
  have htne : jsTrimStr s ≠ "" := iso_trim_ne_empty s h
  have hne : s ≠ "" := by
    intro heq
    apply htne
    rw [heq]
    decide
  have hcan : isCanonicalDate (jsTrimStr s) = false :=
    isoL_not_canonical _ h
  unfold parseFrenchDateMorocco
  simp only [if_neg hne, if_neg htne, isCanonicalDate] at *
  simp only [hcan, Bool.false_eq_true, if_false, h, if_true]

theorem parseFrenchDate_slash_branch (s : String) (hne : s ≠ "")
    (htne : jsTrimStr s ≠ "")
    (hcan : isCanonicalDate (jsTrimStr s) = false)
    (hiso : isISOWithTime (jsTrimStr s) = false) :
    parseFrenchDate s = parseSlashDMY (jsTrimStr s).data := by
  unfold parseFrenchDate
  simp only [if_neg hne, if_neg htne, hcan, Bool.false_eq_true, if_false, hiso]

theorem parseFrenchDateMorocco_slash_branch (engine : String → Option Int)
    (s : String) (hne : s ≠ "") (htne : jsTrimStr s ≠ "")
    (hcan : isCanonicalDate (jsTrimStr s) = false)
    (hiso : isISOWithTime (jsTrimStr s) = false) :
    parseFrenchDateMorocco engine s = parseSlashDMY (jsTrimStr s).data := by
  unfold parseFrenchDateMorocco
  simp only [if_neg hne, if_neg htne, hcan, Bool.false_eq_true, if_false, hiso]

/-! ## Claim theorems: date normalizer -/

/-- C4: on the input `2025-11-30T23:00:00.000Z` the offset-shifted variant
(firebase.ts) returns `2025-12-01` and the truncation variant (part_001)
returns `2025-11-30`; in general, on any trimmed input matching the
date-time prefix regex, the truncation variant returns the part before the
first `T` verbatim, and the offset-shifted variant returns the calendar
date, in the UTC frame, of the parsed instant plus one hour
(`moroccoShiftRender`). -/
theorem C4_iso_datetime_policies :
    parseFrenchDateMorocco jsDateParseMs "2025-11-30T23:00:00.000Z" =
      some "2025-12-01"
    ∧ parseFrenchDate "2025-11-30T23:00:00.000Z" = some "2025-11-30"
    ∧ (∀ s : String, jsTrimStr s = s → isISOWithTime s = true →
        parseFrenchDate s =
          some (String.mk (s.data.takeWhile (fun c => c ≠ 'T'))))
    ∧ (∀ (s : String) (ms : Int), jsTrimStr s = s → isISOWithTime s = true →
        jsDateParseMs s = some ms →
        parseFrenchDateMorocco jsDateParseMs s = some (moroccoShiftRender ms)) := by
  refine ⟨by decide, by decide, ?_, ?_⟩
  · intro s htr hiso
    have := parseFrenchDate_iso s (by rw [htr]; exact hiso)
    rwa [htr] at this
  · intro s ms htr hiso hms
    have := parseFrenchDateMorocco_iso jsDateParseMs s (by rw [htr]; exact hiso)
    rw [htr, hms] at this
    exact this

/-- Witness for C4: the two general conjuncts applied at concrete date-time
strings. -/
theorem C4_iso_datetime_policies_witness :
    parseFrenchDate "1999-12-31T23:59:59Z" =
      some (String.mk ("1999-12-31T23:59:59Z".data.takeWhile (fun c => c ≠ 'T')))
    ∧ parseFrenchDateMorocco jsDateParseMs "2000-01-02T03:04:05.678Z" =
      some (moroccoShiftRender 946782245678) :=
  ⟨C4_iso_datetime_policies.2.2.1 "1999-12-31T23:59:59Z" (by decide) (by decide),
   C4_iso_datetime_policies.2.2.2 "2000-01-02T03:04:05.678Z" 946782245678
     (by decide) (by decide) (by decide)⟩

/-- C5 counterexample: the part_000 legacy variant does not pass canonical
input through — `parseFrenchDate("2025-11-30")` is `null` there, because that
variant only accepts slash-separated input. -/
theorem C5_counterexample :
    isCanonicalDate "2025-11-30" = true
    ∧ parseFrenchDateLegacy jsDateToISODate "2025-11-30" = none := by decide

/-- C5 (amended): canonical `YYYY-MM-DD` input is returned unchanged by the
part_001 truncation variant and by the firebase.ts offset-shifted variant of
`parseFrenchDate`; the part_000 legacy variant instead returns `null` on
every canonical input (it splits on `/` and requires exactly three parts),
whatever the host date engine does. -/
theorem C5_canonical_passthrough_amended :
    ∀ x : String, isCanonicalDate x = true →
      parseFrenchDate x = some x
      ∧ parseFrenchDateMorocco jsDateParseMs x = some x
      ∧ ∀ jsDate : String → Option String,
          parseFrenchDateLegacy jsDate x = none := by
  intro x h
  refine ⟨parseFrenchDate_canonical x h,
    parseFrenchDateMorocco_canonical jsDateParseMs x h, ?_⟩
  intro jsDate
  have hne : x ≠ "" := canonical_ne_empty x h
  unfold parseFrenchDateLegacy
  rw [if_neg hne, splitOnChar_eq_single '/' x.data (canonicalL_no_slash x.data h)]

/-- Witness for C5's amended theorem at a concrete canonical date. -/
theorem C5_canonical_passthrough_witness :
    parseFrenchDate "2024-02-29" = some "2024-02-29"
    ∧ parseFrenchDateMorocco jsDateParseMs "2024-02-29" = some "2024-02-29"
    ∧ ∀ jsDate : String → Option String,
        parseFrenchDateLegacy jsDate "2024-02-29" = none :=
  C5_canonical_passthrough_amended "2024-02-29" (by decide)

/-- C6: a slash-separated `D/M/Y` input (one that reaches the slash branch:
it survives trimming and matches neither of the two regexes) whose parsed
components are in range — day in [1,31], month in [1,12], year ≥ 1900 — is
zero-padded and emitted as `YYYY-MM-DD` by both the truncation and the
offset-shifted variant; parsed components out of range give no result; no
calendar validation happens: `31/13/2025` is `null`, `30/11/2025` becomes
`2025-11-30`, and the nonexistent `31/11/2025` is accepted as
`2025-11-31`. -/
theorem C6_slash_dmy_parsing :
    (∀ (s : String) (p1 p2 p3 : List Char) (d m y : Int),
      jsTrimStr s = s → s ≠ "" →
      isCanonicalDate s = false → isISOWithTime s = false →
      splitOnChar '/' s.data = [p1, p2, p3] →
      jsParseIntL p1 = some d → jsParseIntL p2 = some m → jsParseIntL p3 = some y →
      1 ≤ d → d ≤ 31 → 1 ≤ m → m ≤ 12 → 1900 ≤ y →
      parseFrenchDate s =
        some (toString y ++ "-" ++ padZero 2 (toString m) ++ "-" ++
          padZero 2 (toString d))
      ∧ parseFrenchDateMorocco jsDateParseMs s =
        some (toString y ++ "-" ++ padZero 2 (toString m) ++ "-" ++
          padZero 2 (toString d)))
    ∧ (∀ (s : String) (p1 p2 p3 : List Char) (d m y : Int),
      jsTrimStr s = s → s ≠ "" →
      isCanonicalDate s = false → isISOWithTime s = false →
      splitOnChar '/' s.data = [p1, p2, p3] →
      jsParseIntL p1 = some d → jsParseIntL p2 = some m → jsParseIntL p3 = some y →
      ¬(1 ≤ d ∧ d ≤ 31 ∧ 1 ≤ m ∧ m ≤ 12 ∧ 1900 ≤ y) →
      parseFrenchDate s = none
      ∧ parseFrenchDateMorocco jsDateParseMs s = none)
    ∧ parseFrenchDate "31/13/2025" = none
    ∧ parseFrenchDate "30/11/2025" = some "2025-11-30"
    ∧ parseFrenchDate "31/11/2025" = some "2025-11-31" := by
  have hcore : ∀ (s : String) (p1 p2 p3 : List Char) (d m y : Int),
      jsTrimStr s = s → s ≠ "" →
      isCanonicalDate s = false → isISOWithTime s = false →
      splitOnChar '/' s.data = [p1, p2, p3] →
      jsParseIntL p1 = some d → jsParseIntL p2 = some m → jsParseIntL p3 = some y →
      parseFrenchDate s = parseSlashDMY s.data
      ∧ parseFrenchDateMorocco jsDateParseMs s = parseSlashDMY s.data
      ∧ parseSlashDMY s.data =
        (if 1 ≤ d ∧ d ≤ 31 ∧ 1 ≤ m ∧ m ≤ 12 ∧ 1900 ≤ y then
          some (toString y ++ "-" ++ padZero 2 (toString m) ++ "-" ++
            padZero 2 (toString d))
        else none) := by
    intro s p1 p2 p3 d m y htr hne hcan hiso hsplit hp1 hp2 hp3
    have htne : jsTrimStr s ≠ "" := by rw [htr]; exact hne
    refine ⟨?_, ?_, ?_⟩
    · rw [parseFrenchDate_slash_branch s hne htne (by rwa [htr]) (by rwa [htr]), htr]
    · rw [parseFrenchDateMorocco_slash_branch jsDateParseMs s hne htne
        (by rwa [htr]) (by rwa [htr]), htr]
    · unfold parseSlashDMY
      rw [hsplit]
      simp only [hp1, hp2, hp3]
  refine ⟨?_, ?_, by decide, by decide, by decide⟩
  · intro s p1 p2 p3 d m y htr hne hcan hiso hsplit hp1 hp2 hp3 h1 h2 h3 h4 h5
    obtain ⟨e1, e2, e3⟩ :=
      hcore s p1 p2 p3 d m y htr hne hcan hiso hsplit hp1 hp2 hp3
    rw [if_pos ⟨h1, h2, h3, h4, h5⟩] at e3
    exact ⟨e1.trans e3, e2.trans e3⟩
  · intro s p1 p2 p3 d m y htr hne hcan hiso hsplit hp1 hp2 hp3 hrange
    obtain ⟨e1, e2, e3⟩ :=
      hcore s p1 p2 p3 d m y htr hne hcan hiso hsplit hp1 hp2 hp3
    rw [if_neg hrange] at e3
    exact ⟨e1.trans e3, e2.trans e3⟩

/-- Witness for C6: the in-range conjunct applied at `30/11/2025`, the
out-of-range conjunct applied at `31/13/2025`. -/
theorem C6_slash_dmy_parsing_witness :
    (parseFrenchDate "30/11/2025" =
      some (toString (2025 : Int) ++ "-" ++ padZero 2 (toString (11 : Int)) ++
        "-" ++ padZero 2 (toString (30 : Int)))
     ∧ parseFrenchDateMorocco jsDateParseMs "30/11/2025" =
      some (toString (2025 : Int) ++ "-" ++ padZero 2 (toString (11 : Int)) ++
        "-" ++ padZero 2 (toString (30 : Int))))
    ∧ (parseFrenchDate "31/13/2025" = none
       ∧ parseFrenchDateMorocco jsDateParseMs "31/13/2025" = none) :=
  ⟨C6_slash_dmy_parsing.1 "30/11/2025" ['3', '0'] ['1', '1'] ['2', '0', '2', '5']
      30 11 2025 (by decide) (by decide) (by decide) (by decide) (by decide)
      (by decide) (by decide) (by decide) (by decide) (by decide) (by decide)
      (by decide) (by decide),
   C6_slash_dmy_parsing.2.1 "31/13/2025" ['3', '1'] ['1', '3'] ['2', '0', '2', '5']
      31 13 2025 (by decide) (by decide) (by decide) (by decide) (by decide)
      (by decide) (by decide) (by decide) (by decide)⟩

/-- C8: the part_001 `parseFrenchDate` returns no result on the empty
string, on whitespace-only input, and on any input whose trimmed form
matches neither the canonical regex nor the date-time regex nor the slash
`D/M/Y` branch. -/
theorem C8_unrecognized_input_null :
    parseFrenchDate "" = none
    ∧ (∀ s : String, (∀ c ∈ s.data, jsWhitespace c = true) →
        parseFrenchDate s = none)
    ∧ (∀ s : String, isCanonicalDate (jsTrimStr s) = false →
        isISOWithTime (jsTrimStr s) = false →
        parseSlashDMY (jsTrimStr s).data = none →
        parseFrenchDate s = none) := by
  refine ⟨by decide, ?_, ?_⟩
  · intro s hws
    by_cases hne : s = ""
    · rw [hne]; decide
    · have hte : jsTrimStr s = "" := by
        show String.mk (jsTrimL s.data) = ""
        rw [jsTrimL_eq_nil s.data hws]
      unfold parseFrenchDate
      simp only [if_neg hne, hte, if_true]
  · intro s hcan hiso hslash
    by_cases hne : s = ""
    · rw [hne]; decide
    · by_cases hte : jsTrimStr s = ""
      · unfold parseFrenchDate
        simp only [if_neg hne, hte, if_true]
      · rw [parseFrenchDate_slash_branch s hne hte hcan hiso]
        exact hslash

/-- Witness for C8: whitespace-only and shape-rejected inputs. -/
theorem C8_unrecognized_input_null_witness :
    parseFrenchDate "   " = none ∧ parseFrenchDate "12-34" = none :=
  ⟨C8_unrecognized_input_null.2.1 "   " (by decide),
   C8_unrecognized_input_null.2.2 "12-34" (by decide) (by decide) (by decide)⟩

/-- C9: on canonical `YYYY-MM-DD` input the normalizer passes the input
through, hence it is idempotent there (for both the truncation and the
offset-shifted variant). -/
theorem C9_idempotent_on_canonical :
    ∀ x : String, isCanonicalDate x = true →
      ((parseFrenchDate x).bind parseFrenchDate = parseFrenchDate x
       ∧ parseFrenchDate x = some x)
      ∧ ((parseFrenchDateMorocco jsDateParseMs x).bind
            (parseFrenchDateMorocco jsDateParseMs)
          = parseFrenchDateMorocco jsDateParseMs x
         ∧ parseFrenchDateMorocco jsDateParseMs x = some x) := by
  intro x h
  have h1 := parseFrenchDate_canonical x h
  have h2 := parseFrenchDateMorocco_canonical jsDateParseMs x h
  refine ⟨⟨?_, h1⟩, ⟨?_, h2⟩⟩
  · rw [h1, Option.some_bind, h1]
  · rw [h2, Option.some_bind, h2]

/-- Witness for C9 at a concrete canonical date. -/
theorem C9_idempotent_on_canonical_witness :
    ((parseFrenchDate "2020-06-15").bind parseFrenchDate =
      parseFrenchDate "2020-06-15"
     ∧ parseFrenchDate "2020-06-15" = some "2020-06-15")
    ∧ ((parseFrenchDateMorocco jsDateParseMs "2020-06-15").bind
          (parseFrenchDateMorocco jsDateParseMs)
        = parseFrenchDateMorocco jsDateParseMs "2020-06-15"
       ∧ parseFrenchDateMorocco jsDateParseMs "2020-06-15" = some "2020-06-15") :=
  C9_idempotent_on_canonical "2020-06-15" (by decide)

/-! ## Claim theorems: worker lookup -/

/-- C1 counterexample: on the spec's example response the lookup returns the
raw index-13 value `15/06/2020` in the entry-date field, not the normalized
`2020-06-15` — `searchWorkerInGoogleSheet` never runs the date through the
normalizer. -/
theorem C1_counterexample :
    (searchWorkerInGoogleSheet (.response 200 (.json (.arr [.arr
      [.str "M123", .str "x", .str "Jane Doe", .str "CIN99", .str "", .str "",
       .str "", .str "", .str "", .str "", .str "", .str "", .str "",
       .str "15/06/2020"]]))) "M123").result
      = some ⟨"M123", "Jane Doe", "CIN99", "15/06/2020"⟩
    ∧ ("15/06/2020" : String) ≠ "2020-06-15" := by decide

/-- C1 (amended): for every upstream response whose first element is an
array of at least 14 fields with index 0 = M123, index 2 = Jane Doe,
index 3 = CIN99 and index 13 = 15/06/2020, both lookup variants return a
record with matricule M123, full name Jane Doe, national id CIN99 and the
RAW entry date `15/06/2020`; applying the date normalizer to that raw value
(as the spec's pipeline describes) yields `2020-06-15`. -/
theorem C1_positional_mapping_amended :
    ∀ (sv : String) (f1 f4 f5 f6 f7 f8 f9 f10 f11 f12 : JSVal)
      (tail rest : List JSVal),
      jsTrimStr sv ≠ "" →
      searchWorkerInGoogleSheet
        (.response 200 (.json (.arr (.arr ([.str "M123", f1, .str "Jane Doe",
          .str "CIN99", f4, f5, f6, f7, f8, f9, f10, f11, f12,
          .str "15/06/2020"] ++ tail) :: rest)))) sv
        = ⟨true, some ⟨"M123", "Jane Doe", "CIN99", "15/06/2020"⟩⟩
      ∧ searchWorkerInGoogleSheetFB
        (.response 200 (.json (.arr (.arr ([.str "M123", f1, .str "Jane Doe",
          .str "CIN99", f4, f5, f6, f7, f8, f9, f10, f11, f12,
          .str "15/06/2020"] ++ tail) :: rest)))) sv
        = ⟨true, some ⟨"M123", "Jane Doe", "CIN99",
            convertGenderCode (if jsFalsy f4 then JSVal.str "" else f4),
            "15/06/2020"⟩⟩
      ∧ parseFrenchDate "15/06/2020" = some "2020-06-15" := by
  intro sv f1 f4 f5 f6 f7 f8 f9 f10 f11 f12 tail rest htne
  have hsv : sv ≠ "" := by
    intro h
    apply htne
    rw [h]
    decide
  have hguard : ¬(sv = "" ∨ jsTrimStr sv = "") := not_or.mpr ⟨hsv, htne⟩
  have hlen : ¬((([JSVal.str "M123", f1, JSVal.str "Jane Doe",
      JSVal.str "CIN99", f4, f5, f6, f7, f8, f9, f10, f11, f12,
      JSVal.str "15/06/2020"] : List JSVal) ++ tail).length < 14) := by
    simp [List.length_append]
  refine ⟨?_, ?_, by decide⟩
  · simp only [searchWorkerInGoogleSheet, if_neg hguard]
    simp only [respOk, jsFalsy, rowFieldString, if_neg hlen]
    simp [List.cons_append, List.get?_cons_succ, List.get?_cons_zero, jsToString]
  · simp only [searchWorkerInGoogleSheetFB, if_neg hguard]
    simp only [respOk, jsFalsy, rowFieldString, row4OrEmpty, if_neg hlen]
    simp [List.cons_append, List.get?_cons_succ, List.get?_cons_zero, jsToString]

/-- Witness for C1's amended theorem at a fully concrete response. -/
theorem C1_positional_mapping_witness :
    searchWorkerInGoogleSheet
      (.response 200 (.json (.arr (.arr ([.str "M123", .str "x", .str "Jane Doe",
        .str "CIN99", .str "H", .null, .null, .null, .null, .null, .null, .null,
        .null, .str "15/06/2020"] ++ []) :: [])))) "M123"
      = ⟨true, some ⟨"M123", "Jane Doe", "CIN99", "15/06/2020"⟩⟩
    ∧ searchWorkerInGoogleSheetFB
      (.response 200 (.json (.arr (.arr ([.str "M123", .str "x", .str "Jane Doe",
        .str "CIN99", .str "H", .null, .null, .null, .null, .null, .null, .null,
        .null, .str "15/06/2020"] ++ []) :: [])))) "M123"
      = ⟨true, some ⟨"M123", "Jane Doe", "CIN99",
          convertGenderCode (if jsFalsy (JSVal.str "H") then JSVal.str "" else
            JSVal.str "H"), "15/06/2020"⟩⟩
    ∧ parseFrenchDate "15/06/2020" = some "2020-06-15" :=
  C1_positional_mapping_amended "M123" (.str "x") (.str "H") .null .null .null
    .null .null .null .null .null [] [] (by decide)

/-- C3: every failure condition of the lookup — non-2xx status, empty body,
malformed JSON, non-array body, empty array, first row shorter than 14
fields, first row not an array — produces the same observable outcome,
`none`, in both variants (the embedding is a total function: the source's
`try`/`catch` turns every throw into `return null`), indistinguishable from
the genuine no-match (the empty array). -/
theorem C3_failures_collapse_to_null :
    ∀ (f : FetchOutcome) (sv : String), isFailureResponse f = true →
      (searchWorkerInGoogleSheet f sv).result = none
      ∧ (searchWorkerInGoogleSheetFB f sv).result = none := by
  intro f sv hf
  by_cases hguard : sv = "" ∨ jsTrimStr sv = ""
  · constructor <;>
      simp [searchWorkerInGoogleSheet, searchWorkerInGoogleSheetFB, if_pos hguard]
  · cases f with
    | networkFailure => exact absurd hf (by decide)
    | response status body =>
      simp only [searchWorkerInGoogleSheet, searchWorkerInGoogleSheetFB,
        if_neg hguard]
      by_cases hok : respOk status = true
      · simp only [isFailureResponse, hok, Bool.not_true, Bool.false_or] at hf
        cases body with
        | empty => simp
        | malformed => simp
        | json v =>
          cases v with
          | str s => by_cases hs : s = "" <;> simp [jsFalsy, hs]
          | num n => by_cases hn : n = 0 <;> simp [jsFalsy, hn]
          | bool b => cases b <;> simp [jsFalsy]
          | null => simp [jsFalsy]
          | obj fields => simp [jsFalsy]
          | arr rows =>
            cases rows with
            | nil => simp [jsFalsy]
            | cons row rest =>
              cases row with
              | arr fields =>
                have hlen : fields.length < 14 := by
                  simpa using hf
                simp [jsFalsy, hlen]
              | str s => simp [jsFalsy]
              | num n => simp [jsFalsy]
              | bool b => simp [jsFalsy]
              | null => simp [jsFalsy]
              | obj fs => simp [jsFalsy]
      · have hok' : respOk status = false := by
          cases h : respOk status
          · rfl
          · exact absurd h hok
        simp [hok']

/-- Witness for C3 at a malformed-JSON response. -/
theorem C3_failures_collapse_witness :
    (searchWorkerInGoogleSheet (.response 200 .malformed) "M123").result = none
    ∧ (searchWorkerInGoogleSheetFB (.response 200 .malformed) "M123").result =
      none :=
  C3_failures_collapse_to_null (.response 200 .malformed) "M123" (by decide)

/-- C10: a search term that is empty or trims to empty makes both lookup
variants return `null` immediately, with no HTTP request issued (the
`requested` flag stays false whatever the network would have answered). -/
theorem C10_blank_search_no_request :
    ∀ (sv : String) (f : FetchOutcome), jsTrimStr sv = "" →
      searchWorkerInGoogleSheet f sv = ⟨false, none⟩
      ∧ searchWorkerInGoogleSheetFB f sv = ⟨false, none⟩ := by
  intro sv f h
  have hguard : sv = "" ∨ jsTrimStr sv = "" := Or.inr h
  constructor <;>
    simp [searchWorkerInGoogleSheet, searchWorkerInGoogleSheetFB, if_pos hguard]

/-- Witness for C10 at a whitespace search term. -/
theorem C10_blank_search_witness :
    searchWorkerInGoogleSheet .networkFailure "  " = ⟨false, none⟩
    ∧ searchWorkerInGoogleSheetFB .networkFailure "  " = ⟨false, none⟩ :=
  C10_blank_search_no_request "  " .networkFailure (by decide)

/-! ## Claim theorems: connectivity probe -/

theorem testFBCGo_retry_step (attempts : Nat → AttemptOutcome)
    (rc rem : Nat) (e : JSError) (ha : attempts rc = .err e)
    (h1 : e.code ≠ some "permission-denied")
    (h2 : e.code ≠ some "failed-precondition")
    (h3 : e.code ≠ some "unavailable") (hr : retryClassified e = true) :
    testFBCGo true true attempts rc (rem + 1) =
      ((testFBCGo true true attempts (rc + 1) rem).1,
       ⟨1 + (testFBCGo true true attempts (rc + 1) rem).2.reads,
        2000 * 2 ^ rc :: (testFBCGo true true attempts (rc + 1) rem).2.delays⟩) := by
  conv_lhs => rw [testFBCGo.eq_def]
  simp [ha, h1, h2, h3, hr]

theorem testFBCGo_final_step (attempts : Nat → AttemptOutcome)
    (rc : Nat) (e : JSError) (ha : attempts rc = .err e)
    (h1 : e.code ≠ some "permission-denied")
    (h2 : e.code ≠ some "failed-precondition")
    (h3 : e.code ≠ some "unavailable") :
    testFBCGo true true attempts rc 0 =
      (⟨false, some (connErrorMessage e)⟩, ⟨1, []⟩) := by
  conv_lhs => rw [testFBCGo.eq_def]
  simp [ha, h1, h2, h3]

/-- C2: with an online, authenticated environment, if every attempt fails
with a transiently-classified error, the probe issues the initial read plus
exactly 3 retries with backoff delays exactly 2000, 4000, 8000 ms, and then
reports failure; a permission-denied or failed-precondition error on the
first attempt is terminal: failure is returned immediately (single read, no
delay) with its specific diagnostic message. -/
theorem C2_retry_backoff_and_terminal_errors :
    (∀ attempts : Nat → AttemptOutcome,
      (∀ k, k ≤ 3 → transientFailure (attempts k)) →
      (testFirebaseConnection true true attempts 0).1.success = false
      ∧ (testFirebaseConnection true true attempts 0).2 =
        ⟨4, [2000, 4000, 8000]⟩)
    ∧ (∀ (attempts : Nat → AttemptOutcome) (e : JSError),
        attempts 0 = .err e → e.code = some "permission-denied" →
        testFirebaseConnection true true attempts 0 =
          (⟨false, some "Firestore rules not deployed. Deploy rules via Firebase Console."⟩,
            ⟨1, []⟩))
    ∧ (∀ (attempts : Nat → AttemptOutcome) (e : JSError),
        attempts 0 = .err e → e.code = some "failed-precondition" →
        testFirebaseConnection true true attempts 0 =
          (⟨false, some "Firestore database not created - please initialize database in Firebase Console"⟩,
            ⟨1, []⟩)) := by
  refine ⟨?_, ?_, ?_⟩
  · intro attempts h
    have get : ∀ k, k ≤ 3 → ∃ e, attempts k = .err e ∧ retryClassified e = true ∧
        e.code ≠ some "permission-denied" ∧ e.code ≠ some "failed-precondition" ∧
        e.code ≠ some "unavailable" := by
      intro k hk
      have := h k hk
      cases hek : attempts k with
      | ok => rw [hek] at this; exact absurd this (by simp [transientFailure])
      | err e =>
        rw [hek] at this
        exact ⟨e, rfl, this.1, this.2.1, this.2.2.1, this.2.2.2⟩
    obtain ⟨e0, ha0, hr0, hp0, hf0, hu0⟩ := get 0 (by omega)
    obtain ⟨e1, ha1, hr1, hp1, hf1, hu1⟩ := get 1 (by omega)
    obtain ⟨e2, ha2, hr2, hp2, hf2, hu2⟩ := get 2 (by omega)
    obtain ⟨e3, ha3, hr3, hp3, hf3, hu3⟩ := get 3 (by omega)
    have s3 := testFBCGo_final_step attempts 3 e3 ha3 hp3 hf3 hu3
    have s2 := testFBCGo_retry_step attempts 2 0 e2 ha2 hp2 hf2 hu2 hr2
    have s1 := testFBCGo_retry_step attempts 1 1 e1 ha1 hp1 hf1 hu1 hr1
    have s0 := testFBCGo_retry_step attempts 0 2 e0 ha0 hp0 hf0 hu0 hr0
    rw [s3] at s2
    rw [s2] at s1
    rw [s1] at s0
    show (testFBCGo true true attempts 0 3).1.success = false
      ∧ (testFBCGo true true attempts 0 3).2 = ⟨4, [2000, 4000, 8000]⟩
    rw [s0]
    exact ⟨rfl, rfl⟩
  · intro attempts e ha hc
    show testFBCGo true true attempts 0 3 = _
    conv_lhs => rw [testFBCGo.eq_def]
    simp [ha, hc]
  · intro attempts e ha hc
    have hne : e.code ≠ some "permission-denied" := by
      rw [hc]
      decide
    show testFBCGo true true attempts 0 3 = _
    conv_lhs => rw [testFBCGo.eq_def]
    simp [ha, hc, hne]

/-- Witness for C2: a probe whose every attempt times out, and probes whose
first attempt fails with the two terminal codes. -/
theorem C2_retry_backoff_witness :
    ((testFirebaseConnection true true
        (fun _ => .err ⟨none, "Connection timeout", "Error"⟩) 0).1.success = false
     ∧ (testFirebaseConnection true true
        (fun _ => .err ⟨none, "Connection timeout", "Error"⟩) 0).2 =
        ⟨4, [2000, 4000, 8000]⟩)
    ∧ testFirebaseConnection true true
        (fun _ => .err ⟨some "permission-denied", "Missing or insufficient permissions.", "FirebaseError"⟩) 0 =
      (⟨false, some "Firestore rules not deployed. Deploy rules via Firebase Console."⟩,
        ⟨1, []⟩)
    ∧ testFirebaseConnection true true
        (fun _ => .err ⟨some "failed-precondition", "The Cloud Firestore API is not available.", "FirebaseError"⟩) 0 =
      (⟨false, some "Firestore database not created - please initialize database in Firebase Console"⟩,
        ⟨1, []⟩) :=
  ⟨C2_retry_backoff_and_terminal_errors.1 _
      (fun k _ => ⟨by decide, by decide, by decide, by decide⟩),
   C2_retry_backoff_and_terminal_errors.2.1 _
      ⟨some "permission-denied", "Missing or insufficient permissions.", "FirebaseError"⟩
      rfl rfl,
   C2_retry_backoff_and_terminal_errors.2.2 _
      ⟨some "failed-precondition", "The Cloud Firestore API is not available.", "FirebaseError"⟩
      rfl rfl⟩

/-- C7: when the runtime is online and no user is authenticated, the probe
reports success and issues zero remote document reads, whatever the remote
oracle would have answered. -/
theorem C7_unauthenticated_probe_success :
    ∀ attempts : Nat → AttemptOutcome,
      testFirebaseConnection true false attempts 0 = (⟨true, none⟩, ⟨0, []⟩) := by
  intro attempts
  show testFBCGo true false attempts 0 3 = _
  conv_lhs => rw [testFBCGo.eq_def]
  simp

end Secteur
